import Mathlib

/-!
Verification of the self-update subsystem of the UVPD_Analysis_GUI repository.

The development shallowly embeds the update-related functions of
`GUI/UVPD_GUI_Launcher.py` (`get_latest_commit_sha`, `delete_dir`, the
ID-file handling inside `GUI.check_for_update`) and of
`GUI/Python/Update.py` (`Update_GUI_files`) as executable Lean functions,
and proves or refutes the specification's claims about them.

Python strings (paths, file contents, process output) are modelled as
`List Char`; the path separator of `os.path.join` is abstracted as `'/'`.
-/

namespace UVPD

/-- Python strings are modelled as lists of characters. -/
abbrev PyStr := List Char

instance {ε α : Type} [DecidableEq ε] [DecidableEq α] : DecidableEq (Except ε α) := fun x y =>
  match x, y with
  | .error a, .error b =>
    if h : a = b then isTrue (h ▸ rfl) else isFalse (fun hc => h (Except.error.inj hc))
  | .error _, .ok _ => isFalse (fun hc => Except.noConfusion hc)
  | .ok _, .error _ => isFalse (fun hc => Except.noConfusion hc)
  | .ok a, .ok b =>
    if h : a = b then isTrue (h ▸ rfl) else isFalse (fun hc => h (Except.ok.inj hc))

/-- Model of `os.path.join(a, b)` with the platform separator abstracted as `'/'`. -/
def pj (a b : PyStr) : PyStr := a ++ '/' :: b

/-- Model of `os.path.dirname`: everything before the last separator (empty if none). -/
def dirname (p : PyStr) : PyStr :=
  ((p.reverse.dropWhile (fun c => c ≠ '/')).drop 1).reverse

/-- Model of `os.path.basename`: everything after the last separator. -/
def basename (p : PyStr) : PyStr :=
  (p.reverse.takeWhile (fun c => c ≠ '/')).reverse

/-- The whitespace characters of Python's `str.strip()` / `str.split()`. -/
def isPyWs (c : Char) : Bool :=
  c = ' ' || c = '\t' || c = '\n' || c = '\r' || c = '\x0b' || c = '\x0c'

/-- Model of Python's `str.strip()`: remove leading and trailing whitespace. -/
def pyStrip (s : PyStr) : PyStr :=
  ((s.dropWhile isPyWs).reverse.dropWhile isPyWs).reverse

/-- Model of Python's argument-less `str.split()`: tokens separated by
whitespace runs, with empty tokens dropped. -/
def pySplit (s : PyStr) : List PyStr :=
  (s.splitOnP isPyWs).filter (fun t => t ≠ [])

/-! ## RemoteVersionResolver: `get_latest_commit_sha` (UVPD_GUI_Launcher.py lines 186-201)

The Python function runs `git ls-remote repo_url branch` with captured
output.  If the process exits non-zero it raises
`Exception(f'Error: {stderr}')`, which the surrounding handler re-raises
as `Exception(f'An error occurred: {e}')`.  Otherwise it splits stdout on
whitespace and returns `output[0] if output else None`. -/

/-- The observable outcome of the `subprocess.run(['git','ls-remote',...])` call. -/
structure ProcResult where
  returncode : Int
  stdout : PyStr
  stderr : PyStr
  deriving Repr, DecidableEq

/-- Embedding of `get_latest_commit_sha`, as a function of the completed
`git ls-remote` process result.  `Except` models a raised exception; the
`Option` in the success value models Python's `output[0] if output else None`. -/
def get_latest_commit_sha (r : ProcResult) : Except PyStr (Option PyStr) :=
  if r.returncode ≠ 0 then
    .error ("An error occurred: Error: ".data ++ r.stderr)
  else
    match pySplit r.stdout with
    | [] => .ok none
    | tok :: _ => .ok (some tok)

/-! ## LocalVersionStore read path (UVPD_GUI_Launcher.py lines 602-619)

`check_for_update` reads the ID file wholesale, raises when the raw
content contains `'\n'`, `'\r'` or `' '`, and otherwise takes
`file_content.strip()` as the local SHA.  It then compares with the
remote SHA: on equality it only deletes a leftover `temp` directory; on
inequality it asks the user and, if they accept, calls
`Update_GUI_files` (which is where the workspace clone happens). -/

/-- Embedding of the ID-file parsing step: raises (error) iff the raw
content contains a newline, carriage return or space, with no prior
trimming; on success the value is `content.strip()`. -/
def parse_local_id (content : PyStr) : Except PyStr PyStr :=
  if content.contains '\n' || content.contains '\r' || content.contains ' ' then
    .error "ID file is not in the correct format".data
  else
    .ok (pyStrip content)

/-- Result of one `check_for_update` cycle, up to the user decision. -/
inductive CheckResult
  | UpToDate
  | UpdateAvailable
  | CorruptState
  | MissingState
  deriving Repr, DecidableEq

/-- Embedding of the version-comparison part of `GUI.check_for_update`:
`idFileContent = none` models a missing ID file (FileNotFoundError). -/
def check_for_update (idFileContent : Option PyStr) (repo_SHA : PyStr) : CheckResult :=
  match idFileContent with
  | none => .MissingState
  | some content =>
    match parse_local_id content with
    | .error _ => .CorruptState
    | .ok local_SHA => if repo_SHA = local_SHA then .UpToDate else .UpdateAvailable

/-- Whether a cycle with the given check result creates a workspace
(the `temp` clone happens only inside `Update_GUI_files`, which is called
only when an update is available and the user accepts). -/
def createsWorkspace (r : CheckResult) (userAccepts : Bool) : Bool :=
  match r with
  | .UpdateAvailable => userAccepts
  | _ => false

/-! ## Cleanup: `delete_dir` (UVPD_GUI_Launcher.py lines 203-221)

`delete_dir` calls `shutil.rmtree(directory, onexc=handleRemoveReadonly)`.
Whenever a primitive deletion fails, `rmtree` invokes the handler, which
does `os.chmod(path, stat.S_IWRITE)` followed by `os.unlink(path)`; an
exception raised inside the handler propagates out of `rmtree`.
`delete_dir` catches `PermissionError` (prints a warning and returns) and
re-raises every other exception as a generic `Exception`. -/

/-- The Python exception classes relevant to `delete_dir`.
`FileNotFoundError` and `PermissionError` are distinct subclasses of
`OSError`, so an `except PermissionError` clause does not catch a
`FileNotFoundError`. -/
inductive PyExc
  | PermissionError
  | FileNotFoundError
  | OtherError
  deriving Repr, DecidableEq

/-- Abstract state of one filesystem entry encountered by `rmtree`. -/
structure Entry where
  present : Bool
  readOnly : Bool
  /-- deletion keeps failing with a permission error even after the
  read-only attribute is cleared (e.g. a file held by a sync client). -/
  locked : Bool
  /-- deletion fails with a non-permission error (e.g. a device error). -/
  deviceFault : Bool
  deriving Repr, DecidableEq

/-- Model of a primitive deletion attempt (`os.unlink` / the removal
`rmtree` performs) on one entry. -/
def unlinkE (e : Entry) : Except PyExc Unit :=
  if e.present = false then .error .FileNotFoundError
  else if e.deviceFault = true then .error .OtherError
  else if e.readOnly = true || e.locked = true then .error .PermissionError
  else .ok ()

/-- Model of `os.chmod(path, stat.S_IWRITE)`: clears the read-only
attribute; raises `FileNotFoundError` on an absent path. -/
def chmodWrite (e : Entry) : Except PyExc Entry :=
  if e.present = false then .error .FileNotFoundError
  else .ok { e with readOnly := false }

/-- Embedding of `handleRemoveReadonly` (lines 206-211): clear the
read-only attribute, then retry the deletion once. -/
def handleRemoveReadonly (e : Entry) : Except PyExc Unit := do
  let e1 ← chmodWrite e
  unlinkE e1

/-- One entry as processed by `shutil.rmtree(..., onexc=handleRemoveReadonly)`:
try to delete; on any failure invoke the handler, whose own exception (if any)
propagates. -/
def rmtreeEntry (e : Entry) : Except PyExc Unit :=
  match unlinkE e with
  | .ok _ => .ok ()
  | .error _ => handleRemoveReadonly e

/-- Abstract state of the directory tree passed to `delete_dir`. -/
structure Workspace where
  present : Bool
  entries : List Entry
  deriving Repr, DecidableEq

/-- Entries are processed in order; the first handler exception aborts the walk. -/
def rmtreeEntries : List Entry → Except PyExc Unit
  | [] => .ok ()
  | e :: rest =>
    match rmtreeEntry e with
    | .ok _ => rmtreeEntries rest
    | .error ex => .error ex

/-- Embedding of `shutil.rmtree(directory, onexc=handleRemoveReadonly)`.
On an absent root, the initial `lstat`/`scandir` fails and the handler is
invoked on the root path itself, where `os.chmod` raises
`FileNotFoundError`. -/
def rmtree (w : Workspace) : Except PyExc Workspace :=
  if w.present = false then
    match handleRemoveReadonly { present := false, readOnly := false,
                                 locked := false, deviceFault := false } with
    | .ok _ => .ok { present := false, entries := [] }
    | .error ex => .error ex
  else
    match rmtreeEntries w.entries with
    | .ok _ => .ok { present := false, entries := [] }
    | .error ex => .error ex

/-- Embedding of `delete_dir`: the `Except` is the call's outcome (an
`error` models the re-raised generic `Exception`), the `Bool` records
whether the permission-error warning was printed. -/
def delete_dir (w : Workspace) : Except PyStr Workspace × Bool :=
  match rmtree w with
  | .ok w2 => (.ok w2, false)
  | .error .PermissionError => (.ok w, true)
  | .error _ => (.error "Error encountered trying to remove".data, false)

/-! ## DeferredApplier: `Update_GUI_files` (Update.py lines 25-85)

The embedding models the portion after a successful clone (the manifest
construction at lines 27-32 and the two apply strategies at lines 34-85);
the clone itself (lines 7-23) is assumed to have succeeded, since every
claim below concerns the post-clone behaviour. -/

/-- Observable system state threaded through `Update_GUI_files`. -/
structure SysState where
  /-- local files currently present on disk. -/
  localFiles : List PyStr
  /-- files present inside the cloned `temp` workspace. -/
  staged : List PyStr
  /-- local paths whose `os.remove` raises (e.g. locked by another process). -/
  lockedLocal : List PyStr
  /-- manifest targets currently open or loaded by the running program
  (never consulted by the source code; carried to state independence claims). -/
  openFiles : List PyStr
  /-- current content of the ID file. -/
  idContent : PyStr
  deriving Repr, DecidableEq

/-- Embedding of the `update_files` dictionary (lines 27-32), in insertion
order: local target path mapped to the staged source path.  Built from
`root` and `temp_dir` alone; the source performs no existence check. -/
def update_files (root temp_dir : PyStr) : List (PyStr × PyStr) :=
  [ (pj root "UVPD_GUI_Launcher.py".data,
     pj (pj temp_dir "GUI".data) "UVPD_GUI_Launcher.py".data),
    (pj (pj root "Python".data) "main.py".data,
     pj (pj (pj temp_dir "GUI".data) "Python".data) "main.py".data),
    (pj (pj root "Python".data) "Update.py".data,
     pj (pj (pj temp_dir "GUI".data) "Python".data) "Update.py".data),
    (pj (pj root "Python".data) "workflows.py".data,
     pj (pj (pj temp_dir "GUI".data) "Python".data) "workflows.py".data) ]

/-- The UpdatePlanner operation of the specification, as the source
implements it: the manifest is the `update_files` dictionary, built
without consulting the staged workspace contents (the `workspaceFiles`
argument), and no failure path exists. -/
def plan (workspaceFiles : List PyStr) (root temp_dir : PyStr) :
    Except PyStr (List (PyStr × PyStr)) :=
  .ok (update_files root temp_dir)

/-- One line of the generated ApplyScript (lines 45-50): per manifest
entry a conditional remove of the target and a move of the staged source
into the target's directory, then `sys.exit(0)`. -/
inductive ScriptCmd
  | removeIfExists (target : PyStr)
  | move (src dstDir : PyStr)
  | exitZero
  deriving Repr, DecidableEq

/-- Embedding of the ApplyScript generation loop (lines 45-50). -/
def makeScript (files : List (PyStr × PyStr)) : List ScriptCmd :=
  (files.flatMap fun e => [ScriptCmd.removeIfExists e.1, ScriptCmd.move e.2 (dirname e.1)])
    ++ [ScriptCmd.exitZero]

/-- Model of `shutil.move(src, dstDir)`: fails (returns `none`) when the
source is absent from the staged workspace; otherwise the source leaves
the workspace and appears in the destination directory. -/
def doMove (src target : PyStr) (st : SysState) : Option SysState :=
  if src ∈ st.staged then
    some { st with staged := st.staged.erase src,
                   localFiles := pj (dirname target) (basename src) :: st.localFiles }
  else none

/-- Embedding of the in-process update loop (lines 75-79): for each
`(local_path, github_path)` pair in order, remove the target if present
(`os.path.isfile` / `os.remove`), then move the staged source into the
target's directory.  The `Bool` is `false` when an exception escaped
mid-sequence, in which case the returned state is the partially applied
one. -/
def applyPairs : List (PyStr × PyStr) → SysState → SysState × Bool
  | [], st => (st, true)
  | (l, g) :: rest, st =>
    if l ∈ st.localFiles then
      if l ∈ st.lockedLocal then (st, false)
      else
        let st1 := { st with localFiles := st.localFiles.erase l }
        match doMove g l st1 with
        | some st2 => applyPairs rest st2
        | none => (st1, false)
    else
      match doMove g l st with
      | some st2 => applyPairs rest st2
      | none => (st, false)

/-- Which apply strategy `Update_GUI_files` took. -/
inductive Strategy
  | deferred
  | immediate
  deriving Repr, DecidableEq

/-- Events performed by the host process (and, for `scriptStep`, by the
detached script): used to state ordering claims.  `scriptStep n` is the
execution of the n-th command of the generated ApplyScript. -/
inductive HostEv
  | writeScriptFile
  | fsyncScript
  | sleepGrace
  | popenScript
  | printLaunchError
  | writeIDFile
  | funcReturn
  | sysExit
  | scriptStep (n : Nat)
  deriving Repr, DecidableEq

/-- The observable outcome of one `Update_GUI_files` call. -/
structure UpdateOutcome where
  strategy : Strategy
  /-- commands of the generated ApplyScript (empty in the immediate strategy). -/
  script : List ScriptCmd
  /-- host-process events of the deferred branch, in program order. -/
  hostEvents : List HostEv
  finalState : SysState
  /-- whether an exception propagated out of the call. -/
  raised : Bool
  deriving Repr, DecidableEq

/-- Embedding of `Update_GUI_files` (lines 25-85).  `appdata` is
`os.getenv('APPDATA')`; `launchOk` is whether `subprocess.Popen`
succeeded (its exceptions are caught and printed, line 59-66).  The
deferred branch writes and fsyncs the script, sleeps, launches the
script, writes the ID file and returns; the immediate branch runs the
remove/move loop in-process and writes the ID file afterwards. -/
def Update_GUI_files (appdata : Option PyStr) (launchOk : Bool)
    (root repo_SHA : PyStr) (st : SysState) : UpdateOutcome :=
  let temp_dir := pj root "temp".data
  let files := update_files root temp_dir
  if appdata.isSome then
    { strategy := .deferred
      script := makeScript files
      hostEvents := [.writeScriptFile, .fsyncScript, .sleepGrace, .popenScript]
          ++ (if launchOk then [] else [.printLaunchError])
          ++ [.writeIDFile, .funcReturn]
      finalState := { st with idContent := repo_SHA }
      raised := false }
  else
    match applyPairs files st with
    | (st2, true) =>
      { strategy := .immediate, script := [], hostEvents := [],
        finalState := { st2 with idContent := repo_SHA }, raised := false }
    | (st2, false) =>
      { strategy := .immediate, script := [], hostEvents := [],
        finalState := st2, raised := true }

/-- The host-side event trace of one accepted-update cycle in the
deferred strategy: the events of `Update_GUI_files` followed by the
caller's `sys.exit(0)` (UVPD_GUI_Launcher.py line 634). -/
def deferredCycleEvents (appdata : Option PyStr) (launchOk : Bool)
    (root repo_SHA : PyStr) (st : SysState) : List HostEv :=
  (Update_GUI_files appdata launchOk root repo_SHA st).hostEvents ++ [HostEv.sysExit]

/-- The event trace of the detached ApplyScript: one `scriptStep` per
generated command, in order. -/
def scriptEvents (cmds : List ScriptCmd) : List HostEv :=
  (List.range cmds.length).map HostEv.scriptStep

/-- An interleaving of two event sequences: the set of global schedules
compatible with both processes' program orders. -/
inductive Interleave : List HostEv → List HostEv → List HostEv → Prop
  | nil : Interleave [] [] []
  | left {a b t : List HostEv} {x : HostEv} :
      Interleave a b t → Interleave (x :: a) b (x :: t)
  | right {a b t : List HostEv} {y : HostEv} :
      Interleave a b t → Interleave a (y :: b) (y :: t)

/-! ## Concrete instances used by witnesses and counterexamples -/

/-- A system state with the launcher present locally but an empty staged
workspace: the first manifest source is missing. -/
def stMissingSource : SysState :=
  { localFiles := [pj "app".data "UVPD_GUI_Launcher.py".data],
    staged := [], lockedLocal := [], openFiles := [], idContent := "old".data }

/-- A system state in which every staged source of the manifest for root
`"app"` exists, and no target is present or locked: the in-process apply
succeeds. -/
def stAllStaged : SysState :=
  { localFiles := [],
    staged := (update_files "app".data (pj "app".data "temp".data)).map Prod.snd,
    lockedLocal := [], openFiles := [], idContent := "old".data }

/-- The detached-script event trace for the manifest of root `"app"`. -/
def c1Script : List HostEv :=
  scriptEvents (makeScript (update_files "app".data (pj "app".data "temp".data)))

/-- The host-side trace of one deferred-strategy cycle (launch succeeds). -/
def c1Host : List HostEv :=
  deferredCycleEvents (some "x".data) true "app".data "sha".data stMissingSource

/-- An admissible schedule in which the whole detached script runs after
the spawn but before the host writes the ID file and exits. -/
def c1Bad : List HostEv :=
  [HostEv.writeScriptFile, HostEv.fsyncScript, HostEv.sleepGrace, HostEv.popenScript]
    ++ c1Script ++ [HostEv.writeIDFile, HostEv.funcReturn, HostEv.sysExit]

/-- The schedule in which the detached script runs only after the host has
exited. -/
def c1Good : List HostEv := c1Host ++ c1Script

/-- A read-only (but otherwise deletable) filesystem entry. -/
def eRO : Entry := { present := true, readOnly := true, locked := false, deviceFault := false }

/-- An entry whose deletion keeps failing with a permission error even
after the read-only attribute is cleared. -/
def eLocked : Entry := { present := true, readOnly := false, locked := true, deviceFault := false }

/-- An entry whose deletion fails with a non-permission error. -/
def eFault : Entry := { present := true, readOnly := false, locked := false, deviceFault := true }

/-- An existing, empty workspace directory. -/
def wEmpty : Workspace := { present := true, entries := [] }

/-- An existing workspace holding one read-only entry. -/
def wRO : Workspace := { present := true, entries := [eRO] }

/-- An existing workspace holding one permission-locked entry. -/
def wLocked : Workspace := { present := true, entries := [eLocked] }

/-- An existing workspace holding one entry with a non-permission fault. -/
def wFault : Workspace := { present := true, entries := [eFault] }

/-- The state of the workspace path after a successful deletion. -/
def wAbsent : Workspace := { present := false, entries := [] }

/-! ## Helper lemmas -/

theorem doMove_idContent {g l : PyStr} {st st2 : SysState}
    (h : doMove g l st = some st2) : st2.idContent = st.idContent := by
  unfold doMove at h
  split at h
  · cases h; rfl
  · cases h

theorem applyPairs_idContent (fs : List (PyStr × PyStr)) (st : SysState) :
    ((applyPairs fs st).1).idContent = st.idContent := by
  induction fs generalizing st with
  | nil => rfl
  | cons p rest ih =>
    obtain ⟨l, g⟩ := p
    by_cases h1 : l ∈ st.localFiles
    · by_cases h2 : l ∈ st.lockedLocal
      · simp [applyPairs, h1, h2]
      · rcases hm : doMove g l { st with localFiles := st.localFiles.erase l } with _ | st2
        · simp [applyPairs, h1, h2, hm]
        · have hid := doMove_idContent hm
          simp [applyPairs, h1, h2, hm, ih st2, hid]
    · rcases hm : doMove g l st with _ | st2
      · simp [applyPairs, h1, hm]
      · have hid := doMove_idContent hm
        simp [applyPairs, h1, hm, ih st2, hid]

theorem updateStrategy_eq (appdata : Option PyStr) (launchOk : Bool)
    (root sha : PyStr) (st : SysState) :
    (Update_GUI_files appdata launchOk root sha st).strategy
      = if appdata.isSome then Strategy.deferred else Strategy.immediate := by
  cases appdata with
  | some v => simp [Update_GUI_files]
  | none =>
    rcases h : applyPairs (update_files root (pj root "temp".data)) st with ⟨st2, b⟩
    cases b <;> simp [Update_GUI_files, h]

theorem rmtreeEntry_ok (e : Entry) (hp : e.present = true) (hl : e.locked = false)
    (hd : e.deviceFault = false) : rmtreeEntry e = .ok () := by
  rcases e with ⟨p, ro, lk, df⟩
  simp only at hp hl hd
  subst hp; subst hl; subst hd
  cases ro <;> rfl

theorem rmtreeEntries_ok (es : List Entry)
    (h : ∀ e ∈ es, e.present = true ∧ e.locked = false ∧ e.deviceFault = false) :
    rmtreeEntries es = .ok () := by
  induction es with
  | nil => rfl
  | cons e rest ih =>
    obtain ⟨hp, hl, hd⟩ := h e (by simp)
    have he := rmtreeEntry_ok e hp hl hd
    have hr := ih (fun e' he' => h e' (by simp [he']))
    simp [rmtreeEntries, he, hr]

theorem interleave_sublist_left {a b t : List HostEv} (h : Interleave a b t) :
    List.Sublist a t := by
  induction h with
  | nil => exact List.Sublist.slnil
  | left _ ih => exact List.Sublist.cons₂ _ ih
  | right _ ih => exact List.Sublist.cons _ ih

theorem interleave_nil_right (a : List HostEv) : Interleave a [] a := by
  induction a with
  | nil => exact .nil
  | cons x xs ih => exact .left ih

theorem interleave_all (a b : List HostEv) : Interleave a b (a ++ b) := by
  induction a with
  | nil =>
    simp only [List.nil_append]
    induction b with
    | nil => exact .nil
    | cons y ys ih => exact .right ih
  | cons x xs ih => exact .left ih

theorem interleave_front (a2 b : List HostEv) : Interleave a2 b (b ++ a2) := by
  induction b with
  | nil => simpa using interleave_nil_right a2
  | cons y ys ih => exact .right ih

theorem interleave_append (a1 a2 b : List HostEv) :
    Interleave (a1 ++ a2) b (a1 ++ (b ++ a2)) := by
  induction a1 with
  | nil => simpa using interleave_front a2 b
  | cons x xs ih => exact .left ih

/-! ## Claims -/

/-- Claim C1, counterexample: the claim asserts that in the Deferred
strategy the host process's termination happens-before the first
filesystem mutation performed by the ApplyScript.  This is false: the
script is spawned (line 60 of Update.py) before the ID write and before
the caller's `sys.exit(0)`, and nothing orders the detached script after
the host's exit, so the schedule `c1Bad` — a legal interleaving of the
host trace and the script trace in which the script's first mutation
(`scriptStep 0`, the remove of the first manifest target) runs right
after the spawn and before `sysExit` — is admissible. -/
theorem C1_counterexample :
    Interleave c1Host c1Script c1Bad
  ∧ List.Sublist [HostEv.popenScript, HostEv.scriptStep 0] c1Bad
  ∧ ¬ List.Sublist [HostEv.sysExit, HostEv.scriptStep 0] c1Bad := by
  refine ⟨?_, by decide, by decide⟩
  have hH : c1Host
      = [HostEv.writeScriptFile, HostEv.fsyncScript, HostEv.sleepGrace, HostEv.popenScript]
        ++ [HostEv.writeIDFile, HostEv.funcReturn, HostEv.sysExit] := by decide
  have hB : c1Bad
      = [HostEv.writeScriptFile, HostEv.fsyncScript, HostEv.sleepGrace, HostEv.popenScript]
        ++ (c1Script ++ [HostEv.writeIDFile, HostEv.funcReturn, HostEv.sysExit]) := by
    simp [c1Bad]
  rw [hH, hB]
  exact interleave_append _ _ _

/-- Claim C1, amended: in the Deferred strategy, in every interleaving of
the host cycle with the detached script's events, the ApplyScript spawn
happens-before the persisted-VersionIdentifier write, which
happens-before the host process's termination (`sys.exit(0)`); and the
new identifier is indeed persisted.  The host's termination is NOT
ordered before the script's first filesystem mutation (see the
counterexample). -/
theorem C1_deferred_ordering (appdata : Option PyStr) (launchOk : Bool)
    (root sha : PyStr) (st : SysState) (b t : List HostEv)
    (happ : appdata.isSome = true)
    (hint : Interleave (deferredCycleEvents appdata launchOk root sha st) b t) :
    List.Sublist [HostEv.popenScript, HostEv.writeIDFile, HostEv.sysExit] t
  ∧ (Update_GUI_files appdata launchOk root sha st).finalState.idContent = sha := by
  constructor
  · have hsub : List.Sublist [HostEv.popenScript, HostEv.writeIDFile, HostEv.sysExit]
        (deferredCycleEvents appdata launchOk root sha st) := by
      unfold deferredCycleEvents
      cases launchOk <;> simp [Update_GUI_files, happ] <;> decide
    exact hsub.trans (interleave_sublist_left hint)
  · simp [Update_GUI_files, happ]

/-- Claim C1, witness: the ordering theorem instantiated on the schedule
in which the script runs entirely after the host exits. -/
theorem C1_deferred_ordering_witness :
    List.Sublist [HostEv.popenScript, HostEv.writeIDFile, HostEv.sysExit] c1Good
  ∧ (Update_GUI_files (some "x".data) true "app".data "sha".data
      stMissingSource).finalState.idContent = "sha".data :=
  C1_deferred_ordering (some "x".data) true "app".data "sha".data stMissingSource c1Script c1Good
    rfl (interleave_all c1Host c1Script)

/-- Claim C2, counterexample: the claim asserts that `plan` fails with a
PlanningError when an expected staged source is absent and that the
returned manifest never contains a target whose source is missing.  On a
workspace containing no files at all, the manifest construction succeeds
and returns all four hard-coded entries, every one of whose staged
source paths is absent from the workspace. -/
theorem C2_counterexample :
    plan [] "app".data (pj "app".data "temp".data)
      = Except.ok (update_files "app".data (pj "app".data "temp".data))
  ∧ update_files "app".data (pj "app".data "temp".data) ≠ []
  ∧ (update_files "app".data (pj "app".data "temp".data)).all
      (fun entry => decide (entry.2 ∉ ([] : List PyStr))) = true := by decide

/-- Claim C2, amended: the manifest construction never fails and is
independent of the workspace contents (no existence check is performed);
a missing staged source surfaces only during the in-process apply, after
the corresponding target has already been removed, with the previously
persisted identifier left unchanged. -/
theorem C2_plan_never_checks (ws ws2 : List PyStr) (root temp sha : PyStr) (st : SysState)
    (h1 : st.staged = [])
    (h2 : pj root "UVPD_GUI_Launcher.py".data ∈ st.localFiles)
    (h3 : st.lockedLocal = []) :
    plan ws root temp = Except.ok (update_files root temp)
  ∧ plan ws root temp = plan ws2 root temp
  ∧ (Update_GUI_files none true root sha st).raised = true
  ∧ (Update_GUI_files none true root sha st).finalState.localFiles
      = st.localFiles.erase (pj root "UVPD_GUI_Launcher.py".data)
  ∧ (Update_GUI_files none true root sha st).finalState.idContent = st.idContent := by
  have happ : applyPairs (update_files root (pj root "temp".data)) st
      = ({ st with localFiles := st.localFiles.erase (pj root "UVPD_GUI_Launcher.py".data) },
         false) := by
    simp only [update_files, applyPairs]
    rw [if_pos h2, if_neg (by simp [h3])]
    simp [doMove, h1]
  refine ⟨rfl, rfl, ?_, ?_, ?_⟩ <;> simp [Update_GUI_files, happ]

/-- Claim C2, witness: the amended theorem instantiated on an empty
workspace with the launcher present locally. -/
theorem C2_plan_never_checks_witness :
    plan [] "app".data (pj "app".data "temp".data)
      = Except.ok (update_files "app".data (pj "app".data "temp".data))
  ∧ (Update_GUI_files none true "app".data "new".data stMissingSource).raised = true
  ∧ (Update_GUI_files none true "app".data "new".data stMissingSource).finalState.idContent
      = stMissingSource.idContent :=
  have h := C2_plan_never_checks [] ["x".data] "app".data (pj "app".data "temp".data)
      "new".data stMissingSource rfl (by decide) rfl
  ⟨h.1, h.2.2.1, h.2.2.2.2⟩

/-- Claim C3, counterexample: the claim asserts that a single trailing
newline is trimmed before the whitespace check, so a local file
`"abc123\n"` against remote `"abc123"` yields UpToDate.  The source
checks the raw content first (line 607 of UVPD_GUI_Launcher.py), so that
file is rejected as corrupt and the check never reaches the comparison. -/
theorem C3_counterexample :
    check_for_update (some "abc123\n".data) "abc123".data = CheckResult.CorruptState
  ∧ check_for_update (some "abc123\n".data) "abc123".data ≠ CheckResult.UpToDate
  ∧ createsWorkspace (check_for_update (some "abc123\n".data) "abc123".data) true = false := by
  decide

/-- Claim C3, amended: the whitespace check runs on the raw persisted
content with no prior trimming, so any content containing a newline —
including `"abc123\n"` — makes the check operation fail with the
corrupt-state error, and no workspace is created. -/
theorem C3_newline_raw_check (content repo_SHA : PyStr) (h : '\n' ∈ content) :
    check_for_update (some content) repo_SHA = CheckResult.CorruptState
  ∧ ∀ acc, createsWorkspace (check_for_update (some content) repo_SHA) acc = false := by
  have hp : parse_local_id content = .error "ID file is not in the correct format".data := by
    simp [parse_local_id, h]
  constructor
  · simp [check_for_update, hp]
  · intro acc
    simp [check_for_update, hp, createsWorkspace]

/-- Claim C3, witness: the amended theorem at the claim's own scenario. -/
theorem C3_newline_raw_check_witness :
    check_for_update (some "abc123\n".data) "abc123".data = CheckResult.CorruptState
  ∧ createsWorkspace (check_for_update (some "abc123\n".data) "abc123".data) true = false :=
  ⟨(C3_newline_raw_check "abc123\n".data "abc123".data (by decide)).1,
   (C3_newline_raw_check "abc123\n".data "abc123".data (by decide)).2 true⟩

/-- Claim C4, counterexample: the claim asserts that when the
reference-listing query succeeds but its output has no parsable token,
resolve fails with InvalidResponseError rather than returning an absent
identifier.  The source returns `None` (`output[0] if output else None`,
line 198): on a zero exit with empty output the call succeeds with an
absent identifier. -/
theorem C4_counterexample :
    get_latest_commit_sha ⟨0, [], []⟩ = Except.ok none := by decide

/-- Claim C4, amended: `get_latest_commit_sha` raises when the query
process exits non-zero, returns an absent identifier (None) when the
query succeeds with no parsable token, and returns the first token
otherwise. -/
theorem C4_resolver_behaviour (r : ProcResult) :
    (r.returncode ≠ 0 →
      get_latest_commit_sha r = .error ("An error occurred: Error: ".data ++ r.stderr))
  ∧ (r.returncode = 0 → pySplit r.stdout = [] → get_latest_commit_sha r = .ok none)
  ∧ (∀ tok rest, r.returncode = 0 → pySplit r.stdout = tok :: rest →
      get_latest_commit_sha r = .ok (some tok)) := by
  refine ⟨fun h => ?_, fun h hs => ?_, fun tok rest h hs => ?_⟩
  · simp [get_latest_commit_sha, h]
  · simp [get_latest_commit_sha, h, hs]
  · simp [get_latest_commit_sha, h, hs]

/-- Claim C4, witness: the amended theorem at a failing query and at a
successful query with whitespace-only output. -/
theorem C4_resolver_behaviour_witness :
    get_latest_commit_sha ⟨128, [], "fatal".data⟩
      = Except.error ("An error occurred: Error: ".data ++ "fatal".data)
  ∧ get_latest_commit_sha ⟨0, "\n".data, []⟩ = Except.ok none :=
  ⟨(C4_resolver_behaviour ⟨128, [], "fatal".data⟩).1 (by decide),
   (C4_resolver_behaviour ⟨0, "\n".data, []⟩).2.1 rfl (by decide)⟩

/-- Claim C5, counterexample: the claim asserts `remove_workspace` called
twice in succession (the second call on the already-absent path) succeeds
without error both times.  The first call on an existing directory
succeeds and removes it, but on the absent path `shutil.rmtree` invokes
the `onexc` handler, whose `os.chmod` raises `FileNotFoundError`, which
`delete_dir` does not catch as `PermissionError` and re-raises as a
generic exception: the second call fails. -/
theorem C5_counterexample :
    (delete_dir wEmpty).1 = Except.ok wAbsent
  ∧ (delete_dir wAbsent).1 = Except.error "Error encountered trying to remove".data := by decide

/-- Claim C5, amended: `delete_dir` on an existing, deletable directory
succeeds (leaving the path absent), but a second call on the
already-absent path raises an error — the call boundary is not
idempotent. -/
theorem C5_second_call_raises (w w2 : Workspace) (h1 : w.present = true)
    (h2 : ∀ e ∈ w.entries, e.present = true ∧ e.locked = false ∧ e.deviceFault = false)
    (h3 : w2.present = false) :
    (delete_dir w).1 = Except.ok wAbsent
  ∧ (delete_dir w2).1 = Except.error "Error encountered trying to remove".data := by
  constructor
  · have hr : rmtree w = .ok wAbsent := by
      simp [rmtree, h1, rmtreeEntries_ok w.entries h2, wAbsent]
    simp [delete_dir, hr]
  · have habs : handleRemoveReadonly
        { present := false, readOnly := false, locked := false, deviceFault := false }
        = .error .FileNotFoundError := rfl
    have hr : rmtree w2 = .error .FileNotFoundError := by
      simp [rmtree, h3, habs]
    simp [delete_dir, hr]

/-- Claim C5, witness: the amended theorem on a workspace holding one
read-only entry, then on the absent path. -/
theorem C5_second_call_raises_witness :
    (delete_dir wRO).1 = Except.ok wAbsent
  ∧ (delete_dir wAbsent).1 = Except.error "Error encountered trying to remove".data :=
  C5_second_call_raises wRO wAbsent rfl (by decide) rfl

/-- Claim C6: `delete_dir` handles a read-only entry by clearing the
attribute and retrying the deletion once (the retry succeeds); when a
permission error persists past the retry it prints a warning and returns
successfully; any other filesystem error is propagated to the caller. -/
theorem C6_cleanup_error_routing (e : Entry) (w w2 : Workspace)
    (hp : e.present = true) (hro : e.readOnly = true) (hl : e.locked = false)
    (hd : e.deviceFault = false)
    (hperm : rmtree w = .error .PermissionError)
    (hoth : rmtree w2 = .error .OtherError) :
    (unlinkE e = .error .PermissionError ∧ rmtreeEntry e = .ok ())
  ∧ delete_dir w = (.ok w, true)
  ∧ delete_dir w2 = (.error "Error encountered trying to remove".data, false) := by
  refine ⟨⟨?_, ?_⟩, ?_, ?_⟩
  · rcases e with ⟨p, ro, lk, df⟩
    simp only at hp hro hl hd
    subst hp; subst hro; subst hl; subst hd
    rfl
  · exact rmtreeEntry_ok e hp hl hd
  · simp [delete_dir, hperm]
  · simp [delete_dir, hoth]

/-- Claim C6, witness: the routing theorem on a read-only entry, a
workspace with a permission-locked entry, and a workspace with a
device-faulted entry. -/
theorem C6_cleanup_error_routing_witness :
    (unlinkE eRO = .error .PermissionError ∧ rmtreeEntry eRO = .ok ())
  ∧ delete_dir wLocked = (.ok wLocked, true)
  ∧ delete_dir wFault = (.error "Error encountered trying to remove".data, false) :=
  C6_cleanup_error_routing eRO wLocked wFault rfl rfl rfl rfl (by decide) (by decide)

/-- Claim C7, counterexample: the claim asserts every string containing a
space, a tab, or an embedded newline fails to parse.  The source's
format check (line 607) tests only `'\n'`, `'\r'` and `' '`: a token
containing an embedded tab parses successfully. -/
theorem C7_counterexample :
    parse_local_id "abc\tdef".data = Except.ok "abc\tdef".data := by decide

/-- Claim C7, amended: every string containing a space, a newline or a
carriage return fails to parse with the corrupt-state error; tabs are
not rejected. -/
theorem C7_whitespace_rejection (s : PyStr)
    (h : ' ' ∈ s ∨ '\n' ∈ s ∨ '\r' ∈ s) :
    parse_local_id s = Except.error "ID file is not in the correct format".data := by
  rcases h with h | h | h <;> simp [parse_local_id, h]

/-- Claim C7, witness: the rejection theorem on a token with a space. -/
theorem C7_whitespace_rejection_witness :
    parse_local_id "a b".data = Except.error "ID file is not in the correct format".data :=
  C7_whitespace_rejection "a b".data (Or.inl (by decide))

/-- Claim C8: in the deferred path (APPDATA set), the new version
identifier is persisted and the function returns normally even when
launching the update script raises — the launch exception is caught and
printed — and no manifest file replacement is performed by the host
process itself. -/
theorem C8_deferred_id_written (appdata : Option PyStr) (launchOk : Bool)
    (root sha : PyStr) (st : SysState) (happ : appdata.isSome = true) :
    (Update_GUI_files appdata launchOk root sha st).finalState.idContent = sha
  ∧ (Update_GUI_files appdata launchOk root sha st).raised = false
  ∧ (launchOk = false →
      HostEv.printLaunchError ∈ (Update_GUI_files appdata launchOk root sha st).hostEvents)
  ∧ (Update_GUI_files appdata launchOk root sha st).finalState.localFiles = st.localFiles
  ∧ (Update_GUI_files appdata launchOk root sha st).finalState.staged = st.staged := by
  rcases appdata with _ | v
  · simp at happ
  · cases launchOk
    · have hev : (Update_GUI_files (some v) false root sha st).hostEvents
          = [HostEv.writeScriptFile, HostEv.fsyncScript, HostEv.sleepGrace, HostEv.popenScript,
             HostEv.printLaunchError, HostEv.writeIDFile, HostEv.funcReturn] := rfl
      refine ⟨rfl, rfl, fun _ => ?_, rfl, rfl⟩
      rw [hev]
      decide
    · refine ⟨rfl, rfl, fun hl => ?_, rfl, rfl⟩
      cases hl

/-- Claim C8, witness: the deferred path with a failing script launch. -/
theorem C8_deferred_id_written_witness :
    (Update_GUI_files (some "x".data) false "app".data "new".data
        stMissingSource).finalState.idContent = "new".data
  ∧ HostEv.printLaunchError
      ∈ (Update_GUI_files (some "x".data) false "app".data "new".data
          stMissingSource).hostEvents :=
  have h := C8_deferred_id_written (some "x".data) false "app".data "new".data stMissingSource rfl
  ⟨h.1, h.2.2.1 rfl⟩

/-- Claim C9: the strategy choice of `Update_GUI_files` is determined
solely by whether APPDATA is set — deferred when set, in-process
otherwise — and is unchanged under any modification of the set of files
the running program has open. -/
theorem C9_strategy_only_appdata (appdata : Option PyStr) (launchOk : Bool)
    (root sha : PyStr) (st : SysState) (ofs : List PyStr) :
    (Update_GUI_files appdata launchOk root sha st).strategy
      = (Update_GUI_files appdata launchOk root sha { st with openFiles := ofs }).strategy
  ∧ (Update_GUI_files appdata launchOk root sha st).strategy
      = (if appdata.isSome then Strategy.deferred else Strategy.immediate) :=
  ⟨(updateStrategy_eq appdata launchOk root sha st).trans
      (updateStrategy_eq appdata launchOk root sha _).symm,
   updateStrategy_eq appdata launchOk root sha st⟩

/-- Claim C10: in the in-process path (APPDATA unset), the ID file is
written only after the whole remove-then-move sequence has completed: if
the sequence raises mid-way the previously persisted identifier is
unchanged, and on success the new identifier is persisted. -/
theorem C10_inprocess_id_after_apply (launchOk : Bool) (root sha : PyStr) (st : SysState) :
    ((Update_GUI_files none launchOk root sha st).raised = true →
      (Update_GUI_files none launchOk root sha st).finalState.idContent = st.idContent)
  ∧ ((Update_GUI_files none launchOk root sha st).raised = false →
      (Update_GUI_files none launchOk root sha st).finalState.idContent = sha) := by
  have hid := applyPairs_idContent (update_files root (pj root "temp".data)) st
  rcases h : applyPairs (update_files root (pj root "temp".data)) st with ⟨st2, b⟩
  rw [h] at hid
  have hid2 : st2.idContent = st.idContent := hid
  cases b <;> simp [Update_GUI_files, h, hid2]

/-- Claim C10, witness: a failing apply (missing staged source) keeps the
old identifier; a fully staged apply persists the new one. -/
theorem C10_inprocess_id_after_apply_witness :
    (Update_GUI_files none true "app".data "new".data stMissingSource).finalState.idContent
      = stMissingSource.idContent
  ∧ (Update_GUI_files none true "app".data "new".data stAllStaged).finalState.idContent
      = "new".data :=
  ⟨(C10_inprocess_id_after_apply true "app".data "new".data stMissingSource).1 (by decide),
   (C10_inprocess_id_after_apply true "app".data "new".data stAllStaged).2 (by decide)⟩

end UVPD
